import Mathlib

/-!
Shallow embedding of `O365/account.py` (the `Account` facade) and proofs of
its specified properties.

The file `account.py` is the only source file of the repository; its
collaborators (`connection.py` with `Connection`, `Protocol`,
`MSGraphProtocol`, `oauth_authentication_flow`, the token backend, and the
feature sub-clients) are external.  Where a claim depends on a collaborator,
the collaborator is modelled from the specification and the model carries a
doc comment saying so.

Python conventions used by the embedding:
* a Python value that may be `None` is an `Option`;
* Python truthiness of strings and lists (`x or y`) is `pyStrOr` / `pyListOr`;
* a raised exception is the `Except.error` branch of the result;
* `**kwargs` is the `Kwargs` structure: the keys `account.py` reads
  (`auth_flow_type`, `scopes`, `token_backend`) are explicit fields, every
  other key is carried opaquely in `extra`.
-/

namespace O365

/-- Client id / client secret pair, the `credentials` tuple. -/
abbrev Credentials := String × String

/-- Modelled from the spec: a token held by the token store; the facade only
reads its `is_expired` flag (spec section 6: token freshness). -/
structure Token where
  is_expired : Bool
deriving DecidableEq

/-- Modelled from the spec: the external token store the connection carries.
`token` is the cached token attribute; `stored_token` is what a `get_token`
call would load.  `none` models both a missing and a falsy (empty) token. -/
structure TokenBackend where
  token : Option Token := none
  stored_token : Option Token := none
deriving DecidableEq

/-- Modelled from the spec: `get_token` loads the token from the store. -/
def TokenBackend.get_token (tb : TokenBackend) : Option Token :=
  tb.stored_token

/-- Modelled from the spec (glossary): a protocol object encapsulates the
resource-naming convention (`default_resource`) and scope prefixing
(`scopeBase`).  `isMSGraph` models whether the instance is of the
`MSGraphProtocol` subclass, the Python `isinstance` test. -/
structure Protocol where
  isMSGraph : Bool
  default_resource : String
  scopeBase : String
deriving DecidableEq

/-- Modelled from the spec: scope prefixing done by the protocol object;
`account.py` line 33 calls it as `self.protocol.prefix_scope('.default')`. -/
def Protocol.prefix_scope (p : Protocol) (scope : String) : String :=
  p.scopeBase ++ scope

/-- Modelled from the spec: keyword arguments forwarded by the facade.  The
facade itself reads `auth_flow_type` (absent defaults to `web`, line 29) and
`scopes` (absent defaults to the empty list, line 31); `token_backend` and
all remaining keys flow through to the `Connection` constructor untouched. -/
structure Kwargs where
  auth_flow_type : Option String := none
  scopes : Option (List String) := none
  token_backend : TokenBackend := {}
  extra : List (String × String) := []
deriving DecidableEq

/-- Modelled from the spec: the connection object stores the credentials
pair (`auth`), the auth flow type, the scope list, the token store and the
remaining keyword arguments it was constructed with. -/
structure Connection where
  auth : Credentials
  auth_flow_type : String
  scopes : List String
  token_backend : TokenBackend
  extra : List (String × String)
deriving DecidableEq

/-- Modelled from the spec: `Connection(credentials, **kwargs)` records its
arguments; absent `auth_flow_type` means the web flow, absent `scopes` means
the empty scope list. -/
def mkConnection (cred : Credentials) (kwargs : Kwargs) : Connection :=
  { auth := cred
    auth_flow_type := kwargs.auth_flow_type.getD "web"
    scopes := kwargs.scopes.getD []
    token_backend := kwargs.token_backend
    extra := kwargs.extra }

/-- Modelled from the spec: `MSGraphProtocol(default_resource=main_resource,
**kwargs)` builds a Graph-API protocol instance whose default resource is the
given `main_resource` (the collaborator falls back to `me` when it is absent).
The extra kwargs do not affect the fields the facade reads. -/
def mkMSGraphProtocol (main_resource : Option String) (_kwargs : Kwargs) : Protocol :=
  { isMSGraph := true
    default_resource := main_resource.getD "me"
    scopeBase := "https://graph.microsoft.com/" }

/-- An arbitrary Python object handed to the constructor as `protocol`:
either an instance of (a subclass of) `Protocol`, or anything else. -/
inductive PyObject
  | protocol (p : Protocol)
  | other
deriving DecidableEq

/-- The `protocol` argument of `Account.__init__`: omitted / `None`, the
`MSGraphProtocol` class itself, some other class (modelled by the object its
instantiation produces), or an already constructed instance. -/
inductive ProtocolArg
  | noneArg
  | msGraphCls
  | otherCls (produces : PyObject)
  | inst (o : PyObject)
deriving DecidableEq

/-- Exceptions raised by `account.py`. -/
inductive PyError
  | valueError (msg : String)
  | runtimeError (msg : String)
deriving DecidableEq

/-- Boolean test for the error branch of an `Except`. -/
def isErrB {ε α : Type} : Except ε α → Bool
  | Except.error _ => true
  | Except.ok _ => false

/-- Python `string_opt or fallback`: `None` and the empty string are falsy. -/
def pyStrOr (a : Option String) (b : String) : String :=
  match a with
  | none => b
  | some s => if s = "" then b else s

/-- Python `str.lower()`, mapped over the character sequence (the core
`String.toLower` is defined by well-founded recursion and does not evaluate
inside proofs). -/
def pyLower (s : String) : String :=
  String.mk (s.data.map Char.toLower)

/-- Python `list_opt or fallback`: `None` and the empty list are falsy. -/
def pyListOr (a : Option (List String)) (b : List String) : List String :=
  match a with
  | none => b
  | some l => if l = [] then b else l

/-- Lines 20-23 of `account.py`: `protocol = protocol or MSGraphProtocol`,
then instantiate it when a class was passed (`isinstance(protocol, type)`),
otherwise use the instance directly. -/
def resolveProtocol (parg : ProtocolArg) (main_resource : Option String)
    (kwargs : Kwargs) : PyObject :=
  match parg with
  | ProtocolArg.noneArg => PyObject.protocol (mkMSGraphProtocol main_resource kwargs)
  | ProtocolArg.msGraphCls => PyObject.protocol (mkMSGraphProtocol main_resource kwargs)
  | ProtocolArg.otherCls o => o
  | ProtocolArg.inst o => o

/-- The `Account` facade: the protocol instance, the connection and the
resolved main resource (line 40).  When the caller passed an already
constructed protocol instance, `protocol` is that very object (Python
aliasing), so mutations of it during construction are visible to the
caller. -/
structure Account where
  protocol : Protocol
  con : Connection
  main_resource : String
deriving DecidableEq

/-- `Account.__init__` (lines 20-40): resolve the protocol argument, raise
`ValueError` when the result is not a `Protocol` instance, and for the
backend flow append the default scope when none was supplied and blank out
both the protocol default resource and the account main resource, then build
the connection from the (possibly updated) kwargs. -/
def Account.init (cred : Credentials) (parg : ProtocolArg)
    (main_resource : Option String) (kwargs : Kwargs) : Except PyError Account :=
  match resolveProtocol parg main_resource kwargs with
  | PyObject.other =>
      Except.error (PyError.valueError "protocol must be a subclass of Protocol")
  | PyObject.protocol p =>
      if kwargs.auth_flow_type.getD "web" = "backend" then
        let scopes := kwargs.scopes.getD []
        let kwargs2 :=
          if scopes = [] then
            { kwargs with scopes := some [p.prefix_scope ".default"] }
          else kwargs
        let p2 := { p with default_resource := "" }
        Except.ok
          { protocol := p2
            con := mkConnection cred kwargs2
            main_resource := pyStrOr (some "") p2.default_resource }
      else
        Except.ok
          { protocol := p
            con := mkConnection cred kwargs
            main_resource := pyStrOr main_resource p.default_resource }

/-- `Account.is_authenticated` (lines 48-58): read the cached token, fall
back to `get_token`, and report presence of an unexpired token. -/
def Account.is_authenticated (acc : Account) : Bool :=
  let token :=
    match acc.con.token_backend.token with
    | none => acc.con.token_backend.get_token
    | some t => some t
  match token with
  | none => false
  | some t => !t.is_expired

/-- `Account.authenticate` (lines 60-81).  The two external flows are passed
in as oracles: `flow` stands for `oauth_authentication_flow(*self.con.auth,
scopes=scopes, protocol=self.protocol, ...)` (it also receives the token
backend that `kwargs.setdefault` injects), `request_token` for
`self.con.request_token(None, requested_scopes=scopes)`. -/
def Account.authenticate (acc : Account) (scopes : Option (List String))
    (flow : Credentials → List String → Protocol → TokenBackend → Bool)
    (request_token : Option (List String) → Bool) : Except PyError Bool :=
  if acc.con.auth_flow_type = "web" then
    Except.ok (flow acc.con.auth (pyListOr scopes acc.con.scopes) acc.protocol
      acc.con.token_backend)
  else if acc.con.auth_flow_type = "backend" then
    Except.ok (request_token scopes)
  else
    Except.error (PyError.valueError "Connection auth_flow_type must be either web or backend")

/-- Arguments passed to the external `Message` constructor (line 100). -/
structure Message where
  parent : Account
  main_resource : Option String
  is_draft : Bool
deriving DecidableEq

/-- Arguments passed to the external `MailBox` constructor (line 111). -/
structure MailBox where
  parent : Account
  main_resource : Option String
  name : String
deriving DecidableEq

/-- Arguments passed to the external `AddressBook` constructor (line 128). -/
structure AddressBook where
  parent : Account
  main_resource : Option String
  name : String
deriving DecidableEq

/-- Arguments passed to the external `GlobalAddressList` constructor
(line 133); note it receives no resource argument. -/
structure GlobalAddressList where
  parent : Account
deriving DecidableEq

/-- Arguments passed to the external `Schedule` constructor (line 149). -/
structure Schedule where
  parent : Account
  main_resource : Option String
deriving DecidableEq

/-- Arguments passed to the external `Storage` constructor (line 166). -/
structure Storage where
  parent : Account
  main_resource : Option String
deriving DecidableEq

/-- Arguments passed to the external `Sharepoint` constructor (line 185). -/
structure Sharepoint where
  parent : Account
  main_resource : Option String
deriving DecidableEq

/-- Arguments passed to the external `Planner` constructor (line 196). -/
structure Planner where
  parent : Account
  main_resource : Option String
deriving DecidableEq

/-- Result of `Account.address_book`: a personal address book or the global
address list. -/
inductive ABResult
  | personal (b : AddressBook)
  | gal (g : GlobalAddressList)
deriving DecidableEq

/-- `Account.new_message` (lines 91-100): a draft message parented here. -/
def Account.new_message (acc : Account) (resource : Option String := none) : Message :=
  { parent := acc, main_resource := resource, is_draft := true }

/-- `Account.mailbox` (lines 102-111). -/
def Account.mailbox (acc : Account) (resource : Option String := none) : MailBox :=
  { parent := acc, main_resource := resource, name := "MailBox" }

/-- `Account.address_book` (lines 113-137): case-insensitive dispatch on the
`address_book` selector, `RuntimeError` on anything else. -/
def Account.address_book (acc : Account) (resource : Option String := none)
    (address_book : String := "personal") : Except PyError ABResult :=
  if pyLower address_book = "personal" then
    Except.ok (ABResult.personal
      { parent := acc, main_resource := resource, name := "Personal Address Book" })
  else if pyLower address_book = "gal" then
    Except.ok (ABResult.gal { parent := acc })
  else
    Except.error (PyError.runtimeError "address_book must be either personal or gal")

/-- `Account.schedule` (lines 139-149). -/
def Account.schedule (acc : Account) (resource : Option String := none) : Schedule :=
  { parent := acc, main_resource := resource }

/-- `Account.storage` (lines 151-166): Graph-API only. -/
def Account.storage (acc : Account) (resource : Option String := none) :
    Except PyError Storage :=
  if acc.protocol.isMSGraph then
    Except.ok { parent := acc, main_resource := resource }
  else
    Except.error (PyError.runtimeError "Drive options only works on Microsoft Graph API")

/-- `Account.sharepoint` (lines 168-185): Graph-API only; note the default
resource is the empty string, not `None`. -/
def Account.sharepoint (acc : Account) (resource : Option String := some "") :
    Except PyError Sharepoint :=
  if acc.protocol.isMSGraph then
    Except.ok { parent := acc, main_resource := resource }
  else
    Except.error (PyError.runtimeError "Sharepoint api only works on Microsoft Graph API")

/-- `Account.planner` (lines 187-196): Graph-API only; default resource is
the empty string. -/
def Account.planner (acc : Account) (resource : Option String := some "") :
    Except PyError Planner :=
  if acc.protocol.isMSGraph then
    Except.ok { parent := acc, main_resource := resource }
  else
    Except.error (PyError.runtimeError "planner api only works on Microsoft Graph API")

/-- A concrete account with the default Graph protocol, used as a test
vehicle in closed statements. -/
def graphAcct : Account :=
  { protocol := mkMSGraphProtocol none {}
    con := mkConnection ("client-id", "client-secret") {}
    main_resource := "me" }

/-- The kwargs of a backend-flow construction with no scopes supplied. -/
def backendKwargs : Kwargs :=
  { auth_flow_type := some "backend" }

/-- The account produced by a backend-flow construction with default
protocol and no scopes. -/
def backendAcct : Account :=
  { protocol := { isMSGraph := true, default_resource := ""
                  scopeBase := "https://graph.microsoft.com/" }
    con := mkConnection ("client-id", "client-secret")
      { backendKwargs with scopes := some ["https://graph.microsoft.com/.default"] }
    main_resource := "" }

/-- C1: constructing an `Account` with `auth_flow_type` equal to `backend`
yields an account whose `main_resource` is the empty string, and the scope
list handed to the `Connection` constructor is exactly the protocol-prefixed
`.default` scope when the caller supplied no (or an empty) scopes list, and
the caller's list unchanged otherwise. -/
theorem backend_construction (cred : Credentials) (parg : ProtocolArg)
    (mr : Option String) (kwargs : Kwargs) (acc : Account)
    (hflow : kwargs.auth_flow_type.getD "web" = "backend")
    (hok : Account.init cred parg mr kwargs = Except.ok acc) :
    acc.main_resource = "" ∧
    acc.con.scopes =
      (if kwargs.scopes.getD [] = [] then [acc.protocol.prefix_scope ".default"]
       else kwargs.scopes.getD []) := by
  unfold Account.init at hok
  cases hres : resolveProtocol parg mr kwargs with
  | other => rw [hres] at hok; exact absurd hok (by simp)
  | protocol p =>
    rw [hres] at hok
    dsimp only at hok
    rw [if_pos hflow] at hok
    simp only [Except.ok.injEq] at hok
    subst hok
    constructor
    · simp [pyStrOr]
    · by_cases hs : kwargs.scopes.getD [] = []
      · simp [hs, mkConnection, Protocol.prefix_scope]
      · simp [hs, mkConnection]

/-- C1 witness: a concrete backend-flow construction with no scopes. -/
theorem backend_construction_witness :
    backendAcct.main_resource = "" ∧
    backendAcct.con.scopes =
      (if backendKwargs.scopes.getD [] = [] then
        [backendAcct.protocol.prefix_scope ".default"]
       else backendKwargs.scopes.getD []) :=
  backend_construction ("client-id", "client-secret") ProtocolArg.noneArg none
    backendKwargs backendAcct rfl rfl

/-- C2: when the object passed as `protocol` (or produced by instantiating
the passed protocol class) is not a `Protocol` instance, construction raises
`ValueError` and produces no account. -/
theorem invalid_protocol_raises (cred : Credentials) (parg : ProtocolArg)
    (mr : Option String) (kwargs : Kwargs)
    (h : resolveProtocol parg mr kwargs = PyObject.other) :
    Account.init cred parg mr kwargs =
      Except.error (PyError.valueError "protocol must be a subclass of Protocol") := by
  unfold Account.init
  rw [h]

/-- C2 witness: passing a non-protocol instance raises at construction. -/
theorem invalid_protocol_raises_witness :
    Account.init ("client-id", "client-secret") (ProtocolArg.inst PyObject.other) none {} =
      Except.error (PyError.valueError "protocol must be a subclass of Protocol") :=
  invalid_protocol_raises ("client-id", "client-secret")
    (ProtocolArg.inst PyObject.other) none {} rfl

/-- C3: `authenticate` dispatches on the connection's `auth_flow_type`:
`web` returns the result of the external interactive oauth flow (run on the
connection's stored scopes when none are given), `backend` returns the
result of the connection's token request, and any other value raises
`ValueError` without consulting either flow. -/
theorem authenticate_dispatch (acc : Account) (scopes : Option (List String))
    (flow : Credentials → List String → Protocol → TokenBackend → Bool)
    (request_token : Option (List String) → Bool) :
    acc.authenticate scopes flow request_token =
      (if acc.con.auth_flow_type = "web" then
        Except.ok (flow acc.con.auth (pyListOr scopes acc.con.scopes) acc.protocol
          acc.con.token_backend)
      else if acc.con.auth_flow_type = "backend" then
        Except.ok (request_token scopes)
      else
        Except.error
          (PyError.valueError "Connection auth_flow_type must be either web or backend")) :=
  rfl

/-- C4: `storage`, `sharepoint` and `planner` raise `RuntimeError` exactly
when the account's protocol is not the Graph-API protocol, and otherwise
return a freshly built sub-client parented to this account. -/
theorem graph_only_clients (acc : Account) (r1 r2 r3 : Option String) :
    acc.storage r1 =
      (if acc.protocol.isMSGraph then
        Except.ok { parent := acc, main_resource := r1 }
      else
        Except.error
          (PyError.runtimeError "Drive options only works on Microsoft Graph API")) ∧
    acc.sharepoint r2 =
      (if acc.protocol.isMSGraph then
        Except.ok { parent := acc, main_resource := r2 }
      else
        Except.error
          (PyError.runtimeError "Sharepoint api only works on Microsoft Graph API")) ∧
    acc.planner r3 =
      (if acc.protocol.isMSGraph then
        Except.ok { parent := acc, main_resource := r3 }
      else
        Except.error
          (PyError.runtimeError "planner api only works on Microsoft Graph API")) :=
  ⟨rfl, rfl, rfl⟩

/-- C5: `is_authenticated` is true exactly when a token is present (cached,
or loaded by `get_token` when the cache is empty) and not expired. -/
theorem is_authenticated_iff (acc : Account) :
    acc.is_authenticated = true ↔
      ∃ t : Token,
        (acc.con.token_backend.token = some t ∨
          (acc.con.token_backend.token = none ∧
            acc.con.token_backend.get_token = some t)) ∧
        t.is_expired = false := by
  unfold Account.is_authenticated
  cases h1 : acc.con.token_backend.token with
  | some t =>
      cases ht : t.is_expired <;> simp [h1, ht]
  | none =>
      cases h2 : acc.con.token_backend.get_token with
      | none => simp [h1, h2]
      | some t => cases ht : t.is_expired <;> simp [h1, h2, ht]

/-- C6 counterexample: a construction with `protocol` omitted,
`main_resource` equal to `users` and the backend flow yields a protocol
attribute whose `default_resource` is the empty string, while a Graph-API
protocol constructed with `users` as its default resource holds `users`: the
resulting attribute does not carry the given `main_resource` as its default
resource. -/
theorem default_protocol_counterexample :
    Account.init ("client-id", "client-secret") ProtocolArg.noneArg (some "users")
      backendKwargs = Except.ok backendAcct ∧
    backendAcct.protocol.default_resource = "" ∧
    (mkMSGraphProtocol (some "users") backendKwargs).default_resource = "users" :=
  ⟨rfl, rfl, rfl⟩

/-- C6 amended: for every construction with `protocol` omitted or `None`,
the protocol attribute is the Graph-API protocol instance built from the
given `main_resource` — whose `default_resource` is subsequently blanked to
the empty string when `auth_flow_type` is `backend`, and is left as built
for every other flow — and the extra keyword arguments are passed through to
the `Connection` constructor in every flow. -/
theorem default_protocol_all_flows (cred : Credentials) (mr : Option String)
    (kwargs : Kwargs) :
    ∃ acc : Account,
      Account.init cred ProtocolArg.noneArg mr kwargs = Except.ok acc ∧
      acc.protocol =
        (if kwargs.auth_flow_type.getD "web" = "backend" then
          { mkMSGraphProtocol mr kwargs with default_resource := "" }
        else mkMSGraphProtocol mr kwargs) ∧
      acc.protocol.isMSGraph = true ∧
      acc.con.extra = kwargs.extra := by
  unfold Account.init resolveProtocol
  dsimp only
  by_cases hb : kwargs.auth_flow_type.getD "web" = "backend"
  · rw [if_pos hb]
    refine ⟨_, rfl, by simp [hb], by simp [mkMSGraphProtocol], ?_⟩
    by_cases hs : kwargs.scopes.getD [] = [] <;> simp [hs, mkConnection]
  · rw [if_neg hb]
    exact ⟨_, rfl, by simp [hb], rfl, rfl⟩

/-- C7 counterexample: on an account whose protocol IS the Graph-API
protocol (so the Graph-only condition cannot apply) the public method
`address_book`, called after construction and outside `authenticate`, still
raises a `RuntimeError` when given an unrecognised selector; this error
matches none of the three listed validation conditions. -/
theorem error_conditions_counterexample :
    graphAcct.protocol.isMSGraph = true ∧
    graphAcct.address_book none "contacts" =
      Except.error (PyError.runtimeError "address_book must be either personal or gal") :=
  ⟨rfl, rfl⟩

/-- C7 amended: errors raised by the facade fall into exactly four
validation conditions: (a) a non-protocol object at construction, (b) an
unrecognised `auth_flow_type` at authentication, (c) a non-Graph protocol in
`storage` / `sharepoint` / `planner`, and (d) an `address_book` selector
other than `personal` or `gal` (case-insensitively); no public method raises
for any other reason (`mailbox`, `new_message`, `schedule` and
`is_authenticated` are total by their result types). -/
theorem error_conditions_amended (cred : Credentials) (parg : ProtocolArg)
    (mr : Option String) (kwargs : Kwargs) (acc : Account)
    (r1 r2 r3 r4 : Option String) (s : String) (scopes : Option (List String))
    (flow : Credentials → List String → Protocol → TokenBackend → Bool)
    (request_token : Option (List String) → Bool) :
    (isErrB (Account.init cred parg mr kwargs) = true ↔
      resolveProtocol parg mr kwargs = PyObject.other) ∧
    (isErrB (acc.authenticate scopes flow request_token) = true ↔
      (acc.con.auth_flow_type ≠ "web" ∧ acc.con.auth_flow_type ≠ "backend")) ∧
    (isErrB (acc.storage r1) = true ↔ acc.protocol.isMSGraph = false) ∧
    (isErrB (acc.sharepoint r2) = true ↔ acc.protocol.isMSGraph = false) ∧
    (isErrB (acc.planner r3) = true ↔ acc.protocol.isMSGraph = false) ∧
    (isErrB (acc.address_book r4 s) = true ↔
      (pyLower s ≠ "personal" ∧ pyLower s ≠ "gal")) := by
  refine ⟨?_, ?_, ?_, ?_, ?_, ?_⟩
  · unfold Account.init
    cases hres : resolveProtocol parg mr kwargs with
    | other => simp [isErrB]
    | protocol p =>
        by_cases hb : kwargs.auth_flow_type.getD "web" = "backend" <;>
          simp [hb, isErrB]
  · unfold Account.authenticate
    by_cases hw : acc.con.auth_flow_type = "web"
    · simp [hw, isErrB]
    · by_cases hb : acc.con.auth_flow_type = "backend" <;> simp [hw, hb, isErrB]
  · unfold Account.storage
    cases hg : acc.protocol.isMSGraph <;> simp [hg, isErrB]
  · unfold Account.sharepoint
    cases hg : acc.protocol.isMSGraph <;> simp [hg, isErrB]
  · unfold Account.planner
    cases hg : acc.protocol.isMSGraph <;> simp [hg, isErrB]
  · unfold Account.address_book
    by_cases hp : pyLower s = "personal"
    · simp [hp, isErrB]
    · by_cases hg : pyLower s = "gal" <;> simp [hp, hg, isErrB]

/-- C8: `address_book` returns a personal `AddressBook` parented to the
account for the selector `personal` (case-insensitively), the
`GlobalAddressList` parented to the account for `gal`, and raises
`RuntimeError` on any other selector. -/
theorem address_book_cases (acc : Account) (r : Option String) (s : String) :
    acc.address_book r s =
      (if pyLower s = "personal" then
        Except.ok (ABResult.personal
          { parent := acc, main_resource := r, name := "Personal Address Book" })
      else if pyLower s = "gal" then
        Except.ok (ABResult.gal { parent := acc })
      else
        Except.error
          (PyError.runtimeError "address_book must be either personal or gal")) :=
  rfl

/-- C9: when the caller passes an already constructed protocol instance
(which the account stores by reference, so its fields are the caller's
object's fields), a backend-flow construction sets its `default_resource` to
the empty string, and every other flow leaves the object unchanged. -/
theorem backend_mutates_shared_protocol (cred : Credentials) (p : Protocol)
    (mr : Option String) (kwargs : Kwargs) :
    ∃ acc : Account,
      Account.init cred (ProtocolArg.inst (PyObject.protocol p)) mr kwargs =
        Except.ok acc ∧
      acc.protocol =
        (if kwargs.auth_flow_type.getD "web" = "backend" then
          { p with default_resource := "" }
        else p) := by
  unfold Account.init resolveProtocol
  dsimp only
  by_cases hb : kwargs.auth_flow_type.getD "web" = "backend"
  · rw [if_pos hb]
    exact ⟨_, rfl, by simp [hb]⟩
  · rw [if_neg hb]
    exact ⟨_, rfl, by simp [hb]⟩

/-- C10: with a Graph-API protocol, `sharepoint` and `planner` called with
no resource argument hand the sub-client the empty string as its resource
(independently of the account's `main_resource`), while `mailbox`,
`new_message`, `schedule` and `storage` called with no resource argument
pass `None`. -/
theorem default_resource_arguments (acc : Account)
    (h : acc.protocol.isMSGraph = true) :
    acc.sharepoint = Except.ok { parent := acc, main_resource := some "" } ∧
    acc.planner = Except.ok { parent := acc, main_resource := some "" } ∧
    acc.storage = Except.ok { parent := acc, main_resource := none } ∧
    acc.mailbox = { parent := acc, main_resource := none, name := "MailBox" } ∧
    acc.new_message = { parent := acc, main_resource := none, is_draft := true } ∧
    acc.schedule = { parent := acc, main_resource := none } := by
  refine ⟨?_, ?_, ?_, rfl, rfl, rfl⟩ <;>
    simp [Account.sharepoint, Account.planner, Account.storage, h]

/-- C10 witness: the concrete Graph-protocol account, whose `main_resource`
is `me`, not the empty string. -/
theorem default_resource_arguments_witness :
    graphAcct.protocol.isMSGraph = true ∧
    (graphAcct.sharepoint = Except.ok { parent := graphAcct, main_resource := some "" } ∧
     graphAcct.planner = Except.ok { parent := graphAcct, main_resource := some "" } ∧
     graphAcct.storage = Except.ok { parent := graphAcct, main_resource := none } ∧
     graphAcct.mailbox = { parent := graphAcct, main_resource := none, name := "MailBox" } ∧
     graphAcct.new_message = { parent := graphAcct, main_resource := none, is_draft := true } ∧
     graphAcct.schedule = { parent := graphAcct, main_resource := none }) :=
  ⟨rfl, default_resource_arguments graphAcct rfl⟩

end O365
